import Mathlib

/-!
Shallow embedding of the hermes transaction state machine (src/tx.go), the
savepoint operations (the partner file defining Tx.Savepoint / Tx.RollbackTo
and GenerateSavepointID), and the connection-failure classifier
(src/conn_failures.go), with theorems checking the specification's claims
about them.

Backend I/O is modelled by passing the backend's response (`none` = success,
`some e` = the driver error) into each operation that may reach the backend,
and by recording the list of backend calls the operation issues.  A Go method
on `*Tx` that mutates the receiver is modelled as a function from the old
state to a result holding the returned error, the new state, and the backend
calls made.  The Go `Begin`/`BeginCtx` return the receiver pointer itself on
success; in this state-passing embedding that is reflected by the single
threaded `Tx` value (no second transaction value is ever created).
-/

namespace Hermes

/-- Per-level transaction states, from the constant block of src/tx.go
(`_pending`, `_rollback`, `_commit`). -/
inductive TxState
  | pending
  | rollback
  | commit
  deriving DecidableEq

/-- An opaque backend (driver) error value, passed through unchanged. -/
structure BackendErr where
  code : Nat
  deriving DecidableEq

/-- Errors a Tx operation can return: the three sentinel errors of src/tx.go
plus a backend error passed through. -/
inductive Err
  | txRolledBack
  | txCommitted
  | badContext
  | backend (e : BackendErr)
  deriving DecidableEq

/-- Context identity.  Go compares context interface values by identity
(`tx.ctx != ctx`); an abstract identifier models that. -/
abbrev Ctx := Nat

/-- State of a hermes Tx (src/tx.go struct Tx): bound context, current
per-level state, stack of pushed states, and the sticky rollback flag.
The backend handle and DB pointer carry no state the claims depend on. -/
structure Tx where
  ctx : Option Ctx
  current : TxState
  history : List TxState
  rollback : Bool
  deriving DecidableEq

/-- A call issued to the backend driver by a Tx operation. -/
inductive BackendCall
  | commitCall
  | rollbackCall
  | execCall (query : String)
  | queryCall (query : String)
  | rowCall (query : String)
  | prepareCall (query : String)
  | getCall (query : String)
  | selectCall (query : String)
  deriving DecidableEq

/-- Result of a Tx operation: the error returned (none = nil), the state of
the receiver afterwards, and the backend calls issued, in order. -/
structure Res where
  err : Option Err
  tx : Tx
  calls : List BackendCall
  deriving DecidableEq

/-- Guard of src/tx.go `Tx.ok`: rolled back wins over committed. -/
def Tx.ok (tx : Tx) : Option Err :=
  if tx.rollback then some Err.txRolledBack
  else if tx.current = TxState.commit then some Err.txCommitted
  else none

/-- src/tx.go `Tx.push`: append the current state and reset to pending. -/
def Tx.push (tx : Tx) : Tx :=
  { tx with history := tx.history ++ [tx.current], current := TxState.pending }

/-- src/tx.go `Tx.pop`: no-op on an empty stack, else restore the most
recently pushed state. -/
def Tx.pop (tx : Tx) : Tx :=
  match tx.history.getLast? with
  | none => tx
  | some s => { tx with current := s, history := tx.history.dropLast }

/-- src/tx.go `Tx.Begin`: fails only on the sticky rollback flag; otherwise
pushes and returns the receiver itself. -/
def Tx.Begin (tx : Tx) : Res :=
  if tx.rollback then ⟨some Err.txRolledBack, tx, []⟩
  else ⟨none, tx.push, []⟩

/-- src/tx.go `Tx.BeginCtx`: sticky flag check, then context consistency
check, then bind the context and push. -/
def Tx.BeginCtx (tx : Tx) (c : Ctx) : Res :=
  if tx.rollback then ⟨some Err.txRolledBack, tx, []⟩
  else if tx.ctx ≠ none ∧ tx.ctx ≠ some c then ⟨some Err.badContext, tx, []⟩
  else ⟨none, Tx.push { tx with ctx := some c }, []⟩

/-- src/tx.go `Tx.Exec`: guard via `Tx.ok`, then forward to the backend.
`b` is the backend's response to the forwarded statement. -/
def Tx.Exec (tx : Tx) (query : String) (b : Option BackendErr) : Res :=
  match tx.ok with
  | some e => ⟨some e, tx, []⟩
  | none =>
    match b with
    | some e => ⟨some (Err.backend e), tx, [BackendCall.execCall query]⟩
    | none => ⟨none, tx, [BackendCall.execCall query]⟩

/-- src/tx.go `Tx.Query`: same guard shape as Exec. -/
def Tx.Query (tx : Tx) (query : String) (b : Option BackendErr) : Res :=
  match tx.ok with
  | some e => ⟨some e, tx, []⟩
  | none =>
    match b with
    | some e => ⟨some (Err.backend e), tx, [BackendCall.queryCall query]⟩
    | none => ⟨none, tx, [BackendCall.queryCall query]⟩

/-- src/tx.go `Tx.Row`: after the guard the source always returns a nil
error alongside the row, so only the guard can fail. -/
def Tx.Row (tx : Tx) (query : String) : Res :=
  match tx.ok with
  | some e => ⟨some e, tx, []⟩
  | none => ⟨none, tx, [BackendCall.rowCall query]⟩

/-- src/tx.go `Tx.Prepare`: guard, then forward. -/
def Tx.Prepare (tx : Tx) (query : String) (b : Option BackendErr) : Res :=
  match tx.ok with
  | some e => ⟨some e, tx, []⟩
  | none =>
    match b with
    | some e => ⟨some (Err.backend e), tx, [BackendCall.prepareCall query]⟩
    | none => ⟨none, tx, [BackendCall.prepareCall query]⟩

/-- src/tx.go `Tx.Get`: guard, then forward. -/
def Tx.Get (tx : Tx) (query : String) (b : Option BackendErr) : Res :=
  match tx.ok with
  | some e => ⟨some e, tx, []⟩
  | none =>
    match b with
    | some e => ⟨some (Err.backend e), tx, [BackendCall.getCall query]⟩
    | none => ⟨none, tx, [BackendCall.getCall query]⟩

/-- src/tx.go `Tx.Select`: guard, then forward. -/
def Tx.Select (tx : Tx) (query : String) (b : Option BackendErr) : Res :=
  match tx.ok with
  | some e => ⟨some e, tx, []⟩
  | none =>
    match b with
    | some e => ⟨some (Err.backend e), tx, [BackendCall.selectCall query]⟩
    | none => ⟨none, tx, [BackendCall.selectCall query]⟩

/-- src/tx.go `Tx.Commit`: sticky flag, double-commit guard, then a real
backend commit only when the history stack is empty.  `b` is the backend
commit's response; on a backend error the state is returned untouched. -/
def Tx.Commit (tx : Tx) (b : Option BackendErr) : Res :=
  if tx.rollback then ⟨some Err.txRolledBack, tx, []⟩
  else if tx.current = TxState.commit then ⟨some Err.txCommitted, tx, []⟩
  else if tx.history = [] then
    match b with
    | some e => ⟨some (Err.backend e), tx, [BackendCall.commitCall]⟩
    | none => ⟨none, { tx with current := TxState.commit }, [BackendCall.commitCall]⟩
  else ⟨none, { tx with current := TxState.commit }, []⟩

/-- src/tx.go `Tx.Rollback`: nil if already sticky-rolled-back, committed
guard, then always a real backend rollback; on success mark rolled back,
set the sticky flag, and pop once. -/
def Tx.Rollback (tx : Tx) (b : Option BackendErr) : Res :=
  if tx.rollback then ⟨none, tx, []⟩
  else if tx.current = TxState.commit then ⟨some Err.txCommitted, tx, []⟩
  else
    match b with
    | some e => ⟨some (Err.backend e), tx, [BackendCall.rollbackCall]⟩
    | none =>
      ⟨none, Tx.pop { tx with current := TxState.rollback, rollback := true },
        [BackendCall.rollbackCall]⟩

/-- src/tx.go `Tx.Close`: if the current level is already resolved, pop and
return nil; otherwise perform an implicit backend rollback (popping even
when the backend rollback fails). -/
def Tx.Close (tx : Tx) (b : Option BackendErr) : Res :=
  if tx.current = TxState.rollback ∨ tx.current = TxState.commit then
    ⟨none, tx.pop, []⟩
  else
    match b with
    | some e => ⟨some (Err.backend e), tx.pop, [BackendCall.rollbackCall]⟩
    | none =>
      ⟨none, Tx.pop { tx with current := TxState.rollback, rollback := true },
        [BackendCall.rollbackCall]⟩

/-- src/tx.go `Tx.RolledBack`: the sticky flag. -/
def Tx.RolledBack (tx : Tx) : Bool :=
  tx.rollback

/-- `Tx.Savepoint` from the savepoint file: the freshly generated id is a
parameter (the source draws it from a UUID); the SAVEPOINT statement goes
through `Tx.Exec`, and on any error the returned id is the empty string. -/
def Tx.Savepoint (tx : Tx) (id : String) (b : Option BackendErr) : String × Res :=
  let r := Tx.Exec tx ("SAVEPOINT " ++ id) b
  match r.err with
  | some _ => ("", r)
  | none => (id, r)

/-- `Tx.RollbackTo` from the savepoint file: the partial-rollback statement
goes through `Tx.Exec`; its error, if any, is returned unchanged. -/
def Tx.RollbackTo (tx : Tx) (savepointID : String) (b : Option BackendErr) : Res :=
  Tx.Exec tx ("ROLLBACK TO SAVEPOINT " ++ savepointID) b

/-- The shapes of Go error value relevant to src/conn_failures.go: a
`*net.OpError`, a `*pq.Error` carrying its code string, or any other error. -/
inductive GoError
  | netOpError (msg : String)
  | pqError (code : String)
  | other (msg : String)
  deriving DecidableEq

/-- src/conn_failures.go `DidConnectionFail`.  The input is the Go `error`
argument (`none` = nil).  The source slices `e.Code[0:2]`, which in Go
panics with a slice-bounds error when the code string is shorter than two
bytes; that run-time failure is the `Except.error` branch. -/
def DidConnectionFail : Option GoError → Except String Bool
  | none => Except.ok false
  | some (GoError.netOpError _) => Except.ok true
  | some (GoError.pqError code) =>
    if code.length < 2 then Except.error "slice bounds out of range"
    else
      let c := code.take 2
      Except.ok (c = "08" || c = "3D" || c = "53" || c = "57" || c = "58" || c = "XX")
  | some (GoError.other _) => Except.ok false

/-- Modelled from the spec: the classification the Failure Classifier section
describes — networking-transport errors and the fixed set of backend code
classes (connection failed, database not found, insufficient resources,
operator intervention, system error, internal server error) are connection
failures; everything else is not. -/
def specConnectionFailure : Option GoError → Bool
  | some (GoError.netOpError _) => true
  | some (GoError.pqError code) =>
    (code.take 2) ∈ (["08", "3D", "53", "57", "58", "XX"] : List String)
  | _ => false

theorem pop_rollback_eq (tx : Tx) : (Tx.pop tx).rollback = tx.rollback := by
  unfold Tx.pop
  cases h : tx.history.getLast? <;> simp

/-- C1: Commit issues the real backend commit exactly when the history stack
is empty; at depth > 0 (nonempty stack) it touches no backend primitive and
only sets the current state to Committed.  The hypotheses restrict to a
Commit that passes the sticky-rollback and double-commit guards (the guarded
failure cases issue no backend call either and are the subject of C2/C4). -/
theorem commit_backend_iff_outermost (tx : Tx) (b : Option BackendErr)
    (hs : tx.rollback = false) (hc : tx.current ≠ TxState.commit) :
    ((Tx.Commit tx b).calls = [BackendCall.commitCall] ↔ tx.history = [])
    ∧ (tx.history ≠ [] →
        Tx.Commit tx b = ⟨none, { tx with current := TxState.commit }, []⟩) := by
  unfold Tx.Commit
  simp only [hs, if_false, Bool.false_eq_true, if_neg hc]
  by_cases hh : tx.history = []
  · cases b <;> simp [hh]
  · simp [hh]

/-- C1 witness: a pending transaction at depth 1 (one pushed state). -/
theorem commit_backend_iff_outermost_case :
    ((Tx.Commit ⟨none, TxState.pending, [TxState.pending], false⟩ none).calls
        = [BackendCall.commitCall]
      ↔ ([TxState.pending] : List TxState) = [])
    ∧ (([TxState.pending] : List TxState) ≠ [] →
        Tx.Commit ⟨none, TxState.pending, [TxState.pending], false⟩ none
          = ⟨none,
              { (Tx.mk none TxState.pending [TxState.pending] false) with
                  current := TxState.commit }, []⟩) :=
  commit_backend_iff_outermost ⟨none, TxState.pending, [TxState.pending], false⟩
    none rfl (by decide)

/-- C5: when the sticky flag is clear, Begin issues no backend call, pushes
the current state (the stack grows by exactly one), resets the current state
to Pending, and hands back the same (single, threaded) transaction value;
when the sticky flag is set, Begin fails with the RolledBack error and the
state — in particular the stack — is unchanged. -/
theorem begin_pushes_or_rejects (t₁ t₂ : Tx)
    (h₁ : t₁.rollback = false) (h₂ : t₂.rollback = true) :
    Tx.Begin t₁
      = ⟨none,
          { t₁ with
              history := t₁.history ++ [t₁.current],
              current := TxState.pending }, []⟩
    ∧ (Tx.Begin t₁).tx.history.length = t₁.history.length + 1
    ∧ Tx.Begin t₂ = ⟨some Err.txRolledBack, t₂, []⟩ := by
  unfold Tx.Begin Tx.push
  simp [h₁, h₂]

/-- C5 witness: a fresh depth-0 transaction and a poisoned one. -/
theorem begin_pushes_or_rejects_case :
    Tx.Begin ⟨none, TxState.pending, [], false⟩
      = ⟨none,
          { (Tx.mk none TxState.pending [] false) with
              history := [] ++ [TxState.pending],
              current := TxState.pending }, []⟩
    ∧ (Tx.Begin ⟨none, TxState.pending, [], false⟩).tx.history.length
        = List.length ([] : List TxState) + 1
    ∧ Tx.Begin ⟨none, TxState.pending, [], true⟩
        = ⟨some Err.txRolledBack, ⟨none, TxState.pending, [], true⟩, []⟩ :=
  begin_pushes_or_rejects ⟨none, TxState.pending, [], false⟩
    ⟨none, TxState.pending, [], true⟩ rfl rfl

/-- C7: at depth 0, when the backend commit reports an error, Commit returns
that backend error unchanged, issues only the backend commit call, and leaves
the whole state (current, history, sticky flag) exactly as it was. -/
theorem commit_failure_atomic (tx : Tx) (e : BackendErr)
    (hh : tx.history = []) (hs : tx.rollback = false)
    (hc : tx.current ≠ TxState.commit) :
    Tx.Commit tx (some e) = ⟨some (Err.backend e), tx, [BackendCall.commitCall]⟩ := by
  unfold Tx.Commit
  simp [hs, hc, hh]

/-- C7 witness: a pending depth-0 transaction and backend error 7. -/
theorem commit_failure_atomic_case :
    Tx.Commit ⟨none, TxState.pending, [], false⟩ (some ⟨7⟩)
      = ⟨some (Err.backend ⟨7⟩), ⟨none, TxState.pending, [], false⟩,
          [BackendCall.commitCall]⟩ :=
  commit_failure_atomic ⟨none, TxState.pending, [], false⟩ ⟨7⟩ rfl rfl (by decide)

/-- C8: on a pending, unpoisoned transaction, RollbackTo issues exactly the
partial-rollback statement through the Exec path and leaves the state
(current, history, sticky flag) untouched whatever the backend answers; when
the backend accepts it, the returned error is nil. -/
theorem rollbackTo_frame (tx : Tx) (id : String) (b : Option BackendErr)
    (hp : tx.current = TxState.pending) (hs : tx.rollback = false) :
    (Tx.RollbackTo tx id b).tx = tx
    ∧ (Tx.RollbackTo tx id b).calls
        = [BackendCall.execCall ("ROLLBACK TO SAVEPOINT " ++ id)]
    ∧ (Tx.RollbackTo tx id none).err = none := by
  unfold Tx.RollbackTo Tx.Exec Tx.ok
  cases b <;> simp [hp, hs]

/-- C8 witness: a pending depth-0 transaction and a sample savepoint id. -/
theorem rollbackTo_frame_case :
    (Tx.RollbackTo ⟨none, TxState.pending, [], false⟩ "point_ab" none).tx
        = ⟨none, TxState.pending, [], false⟩
    ∧ (Tx.RollbackTo ⟨none, TxState.pending, [], false⟩ "point_ab" none).calls
        = [BackendCall.execCall ("ROLLBACK TO SAVEPOINT " ++ "point_ab")]
    ∧ (Tx.RollbackTo ⟨none, TxState.pending, [], false⟩ "point_ab" none).err
        = none :=
  rollbackTo_frame ⟨none, TxState.pending, [], false⟩ "point_ab" none rfl rfl

/-- C10: with the sticky flag set, Savepoint returns an empty id and the
RolledBack error and RollbackTo returns the RolledBack error, with nothing
issued to the backend; on a committed (unpoisoned) transaction both fail with
the AlreadyCommitted error, again issuing nothing. -/
theorem savepoint_ops_guarded (t₁ t₂ : Tx) (id sp : String) (b : Option BackendErr)
    (h₁ : t₁.rollback = true)
    (h₂ : t₂.rollback = false) (h₃ : t₂.current = TxState.commit) :
    (Tx.Savepoint t₁ id b).1 = ""
    ∧ (Tx.Savepoint t₁ id b).2.err = some Err.txRolledBack
    ∧ (Tx.Savepoint t₁ id b).2.calls = []
    ∧ (Tx.RollbackTo t₁ sp b).err = some Err.txRolledBack
    ∧ (Tx.RollbackTo t₁ sp b).calls = []
    ∧ (Tx.Savepoint t₂ id b).1 = ""
    ∧ (Tx.Savepoint t₂ id b).2.err = some Err.txCommitted
    ∧ (Tx.Savepoint t₂ id b).2.calls = []
    ∧ (Tx.RollbackTo t₂ sp b).err = some Err.txCommitted
    ∧ (Tx.RollbackTo t₂ sp b).calls = [] := by
  unfold Tx.Savepoint Tx.RollbackTo Tx.Exec Tx.ok
  simp [h₁, h₂, h₃]

/-- C10 witness: a poisoned transaction and a committed one. -/
theorem savepoint_ops_guarded_case :
    (Tx.Savepoint ⟨none, TxState.pending, [], true⟩ "point_ab" none).1 = ""
    ∧ (Tx.Savepoint ⟨none, TxState.pending, [], true⟩ "point_ab" none).2.err
        = some Err.txRolledBack
    ∧ (Tx.Savepoint ⟨none, TxState.pending, [], true⟩ "point_ab" none).2.calls = []
    ∧ (Tx.RollbackTo ⟨none, TxState.pending, [], true⟩ "point_cd" none).err
        = some Err.txRolledBack
    ∧ (Tx.RollbackTo ⟨none, TxState.pending, [], true⟩ "point_cd" none).calls = []
    ∧ (Tx.Savepoint ⟨none, TxState.commit, [], false⟩ "point_ab" none).1 = ""
    ∧ (Tx.Savepoint ⟨none, TxState.commit, [], false⟩ "point_ab" none).2.err
        = some Err.txCommitted
    ∧ (Tx.Savepoint ⟨none, TxState.commit, [], false⟩ "point_ab" none).2.calls = []
    ∧ (Tx.RollbackTo ⟨none, TxState.commit, [], false⟩ "point_cd" none).err
        = some Err.txCommitted
    ∧ (Tx.RollbackTo ⟨none, TxState.commit, [], false⟩ "point_cd" none).calls = [] :=
  savepoint_ops_guarded ⟨none, TxState.pending, [], true⟩
    ⟨none, TxState.commit, [], false⟩ "point_ab" "point_cd" none rfl rfl rfl

theorem commit_on_sticky (tx : Tx) (b : Option BackendErr)
    (h : tx.rollback = true) : Tx.Commit tx b = ⟨some Err.txRolledBack, tx, []⟩ := by
  unfold Tx.Commit
  simp [h]

theorem rollback_on_sticky (tx : Tx) (b : Option BackendErr)
    (h : tx.rollback = true) : Tx.Rollback tx b = ⟨none, tx, []⟩ := by
  unfold Tx.Rollback
  simp [h]

theorem commit_success (tx : Tx) (b : Option BackendErr)
    (h : (Tx.Commit tx b).err = none) :
    tx.rollback = false ∧ tx.current ≠ TxState.commit
    ∧ (Tx.Commit tx b).tx = { tx with current := TxState.commit } := by
  unfold Tx.Commit at h ⊢
  by_cases hr : tx.rollback = true
  · simp [hr] at h
  · by_cases hc : tx.current = TxState.commit
    · simp [hr, hc] at h
    · by_cases hh : tx.history = []
      · cases b with
        | some e => simp [hr, hc, hh] at h
        | none => simp_all
      · simp_all

theorem rollback_success_sticky (tx : Tx) (b : Option BackendErr)
    (h : (Tx.Rollback tx b).err = none) :
    (Tx.Rollback tx b).tx.rollback = true := by
  unfold Tx.Rollback at h ⊢
  by_cases hr : tx.rollback = true
  · simp [hr]
  · by_cases hc : tx.current = TxState.commit
    · simp [hr, hc] at h
    · cases b with
      | some e => simp [hr, hc] at h
      | none => simp [hr, hc, pop_rollback_eq]

theorem rollback_success_state (tx : Tx) (b : Option BackendErr)
    (hs : tx.rollback = false) (h : (Tx.Rollback tx b).err = none) :
    (Tx.Rollback tx b).tx
      = Tx.pop { tx with current := TxState.rollback, rollback := true } := by
  unfold Tx.Rollback at h ⊢
  by_cases hc : tx.current = TxState.commit
  · simp [hs, hc] at h
  · cases b with
    | some e => simp [hs, hc] at h
    | none => simp [hs, hc]

/-- C2: with the sticky rollback flag set, every operation other than Close
and Rollback — Begin, BeginCtx, Exec, Query, Row, Prepare, Get, Select,
Commit — fails with the RolledBack error, for every history stack and every
current state; and no operation, Close and Rollback included, ever clears
the flag. -/
theorem sticky_rollback_poisons (tx : Tx) (c : Ctx) (q : String)
    (b : Option BackendErr) (h : tx.rollback = true) :
    (Tx.Begin tx).err = some Err.txRolledBack
    ∧ (Tx.BeginCtx tx c).err = some Err.txRolledBack
    ∧ (Tx.Exec tx q b).err = some Err.txRolledBack
    ∧ (Tx.Query tx q b).err = some Err.txRolledBack
    ∧ (Tx.Row tx q).err = some Err.txRolledBack
    ∧ (Tx.Prepare tx q b).err = some Err.txRolledBack
    ∧ (Tx.Get tx q b).err = some Err.txRolledBack
    ∧ (Tx.Select tx q b).err = some Err.txRolledBack
    ∧ (Tx.Commit tx b).err = some Err.txRolledBack
    ∧ (Tx.Begin tx).tx.rollback = true
    ∧ (Tx.BeginCtx tx c).tx.rollback = true
    ∧ (Tx.Exec tx q b).tx.rollback = true
    ∧ (Tx.Query tx q b).tx.rollback = true
    ∧ (Tx.Row tx q).tx.rollback = true
    ∧ (Tx.Prepare tx q b).tx.rollback = true
    ∧ (Tx.Get tx q b).tx.rollback = true
    ∧ (Tx.Select tx q b).tx.rollback = true
    ∧ (Tx.Commit tx b).tx.rollback = true
    ∧ (Tx.Rollback tx b).tx.rollback = true
    ∧ (Tx.Close tx b).tx.rollback = true := by
  unfold Tx.Begin Tx.BeginCtx Tx.Exec Tx.Query Tx.Row Tx.Prepare Tx.Get
    Tx.Select Tx.Commit Tx.Rollback Tx.Close Tx.ok
  by_cases hcur : tx.current = TxState.rollback ∨ tx.current = TxState.commit
  · cases b <;> simp [h, hcur, pop_rollback_eq]
  · cases b <;> simp [h, hcur, pop_rollback_eq]

/-- C2 witness: a poisoned transaction with an empty stack. -/
theorem sticky_rollback_poisons_case :
    (Tx.Begin ⟨none, TxState.pending, [], true⟩).err = some Err.txRolledBack
    ∧ (Tx.BeginCtx ⟨none, TxState.pending, [], true⟩ 0).err = some Err.txRolledBack
    ∧ (Tx.Exec ⟨none, TxState.pending, [], true⟩ "q" none).err = some Err.txRolledBack
    ∧ (Tx.Query ⟨none, TxState.pending, [], true⟩ "q" none).err = some Err.txRolledBack
    ∧ (Tx.Row ⟨none, TxState.pending, [], true⟩ "q").err = some Err.txRolledBack
    ∧ (Tx.Prepare ⟨none, TxState.pending, [], true⟩ "q" none).err = some Err.txRolledBack
    ∧ (Tx.Get ⟨none, TxState.pending, [], true⟩ "q" none).err = some Err.txRolledBack
    ∧ (Tx.Select ⟨none, TxState.pending, [], true⟩ "q" none).err = some Err.txRolledBack
    ∧ (Tx.Commit ⟨none, TxState.pending, [], true⟩ none).err = some Err.txRolledBack
    ∧ (Tx.Begin ⟨none, TxState.pending, [], true⟩).tx.rollback = true
    ∧ (Tx.BeginCtx ⟨none, TxState.pending, [], true⟩ 0).tx.rollback = true
    ∧ (Tx.Exec ⟨none, TxState.pending, [], true⟩ "q" none).tx.rollback = true
    ∧ (Tx.Query ⟨none, TxState.pending, [], true⟩ "q" none).tx.rollback = true
    ∧ (Tx.Row ⟨none, TxState.pending, [], true⟩ "q").tx.rollback = true
    ∧ (Tx.Prepare ⟨none, TxState.pending, [], true⟩ "q" none).tx.rollback = true
    ∧ (Tx.Get ⟨none, TxState.pending, [], true⟩ "q" none).tx.rollback = true
    ∧ (Tx.Select ⟨none, TxState.pending, [], true⟩ "q" none).tx.rollback = true
    ∧ (Tx.Commit ⟨none, TxState.pending, [], true⟩ none).tx.rollback = true
    ∧ (Tx.Rollback ⟨none, TxState.pending, [], true⟩ none).tx.rollback = true
    ∧ (Tx.Close ⟨none, TxState.pending, [], true⟩ none).tx.rollback = true :=
  sticky_rollback_poisons ⟨none, TxState.pending, [], true⟩ 0 "q" none rfl

/-- C4: a second Commit after a successful Commit fails with
AlreadyCommitted; Commit after a successful Rollback fails with RolledBack;
a second Rollback after a successful Rollback returns no error; and after a
successful outermost Commit followed by Close, a further Commit still fails
with AlreadyCommitted. -/
theorem repeated_resolution (t₁ t₂ t₃ : Tx) (b₁ b₂ b₃ b' : Option BackendErr)
    (h₁ : (Tx.Commit t₁ b₁).err = none)
    (h₂ : (Tx.Rollback t₂ b₂).err = none)
    (h₃ : t₃.history = []) (h₄ : (Tx.Commit t₃ b₃).err = none) :
    (Tx.Commit (Tx.Commit t₁ b₁).tx b').err = some Err.txCommitted
    ∧ (Tx.Commit (Tx.Rollback t₂ b₂).tx b').err = some Err.txRolledBack
    ∧ (Tx.Rollback (Tx.Rollback t₂ b₂).tx b').err = none
    ∧ (Tx.Commit (Tx.Close (Tx.Commit t₃ b₃).tx b').tx b').err
        = some Err.txCommitted := by
  obtain ⟨hr₁, -, hc₁⟩ := commit_success t₁ b₁ h₁
  obtain ⟨hr₃, -, hc₃⟩ := commit_success t₃ b₃ h₄
  have hst := rollback_success_sticky t₂ b₂ h₂
  refine ⟨?_, ?_, ?_, ?_⟩
  · rw [hc₁]
    unfold Tx.Commit
    simp [hr₁]
  · rw [commit_on_sticky _ b' hst]
  · rw [rollback_on_sticky _ b' hst]
  · have hcl : (Tx.Close (Tx.Commit t₃ b₃).tx b').tx = (Tx.Commit t₃ b₃).tx := by
      unfold Tx.Close
      rw [hc₃]
      simp [Tx.pop, h₃]
    rw [hcl, hc₃]
    unfold Tx.Commit
    simp [hr₃]

/-- C4 witness: fresh depth-0 transactions, backend accepting every call. -/
theorem repeated_resolution_case :
    (Tx.Commit (Tx.Commit ⟨none, TxState.pending, [], false⟩ none).tx none).err
        = some Err.txCommitted
    ∧ (Tx.Commit (Tx.Rollback ⟨some 1, TxState.pending, [], false⟩ none).tx none).err
        = some Err.txRolledBack
    ∧ (Tx.Rollback (Tx.Rollback ⟨some 1, TxState.pending, [], false⟩ none).tx none).err
        = none
    ∧ (Tx.Commit
        (Tx.Close (Tx.Commit ⟨some 2, TxState.pending, [], false⟩ none).tx none).tx
        none).err = some Err.txCommitted :=
  repeated_resolution ⟨none, TxState.pending, [], false⟩
    ⟨some 1, TxState.pending, [], false⟩ ⟨some 2, TxState.pending, [], false⟩
    none none none none (by decide) (by decide) rfl (by decide)

/-- C3 counterexample: after a successful Rollback at depth 1, Close is not
benign — the Rollback has already popped the stack and restored `current` to
the enclosing Pending state, so Close issues another backend rollback call
and, when the backend refuses it, returns that error instead of nil. -/
theorem close_not_benign_after_nested_rollback :
    (Tx.Rollback ⟨none, TxState.pending, [TxState.pending], false⟩ none).err = none
    ∧ (Tx.Close
        (Tx.Rollback ⟨none, TxState.pending, [TxState.pending], false⟩ none).tx
        (some ⟨7⟩)).calls = [BackendCall.rollbackCall]
    ∧ (Tx.Close
        (Tx.Rollback ⟨none, TxState.pending, [TxState.pending], false⟩ none).tx
        (some ⟨7⟩)).err = some (Err.backend ⟨7⟩) := by
  decide

/-- C3 amended: after a successful Commit at any depth, and after a
successful real Rollback at depth 0 (empty history, sticky flag previously
clear), Close issues no backend call, applies one (empty-stack-guarded) pop,
and returns nil.  After a successful Rollback at depth > 0 this fails: the
pop inside Rollback restores the enclosing Pending state, so Close performs
another backend rollback (see the counterexample). -/
theorem close_benign_after_resolution (t₁ t₂ : Tx) (b₁ b₂ b' : Option BackendErr)
    (hc : (Tx.Commit t₁ b₁).err = none)
    (hs : t₂.rollback = false) (hh : t₂.history = [])
    (hr : (Tx.Rollback t₂ b₂).err = none) :
    Tx.Close (Tx.Commit t₁ b₁).tx b' = ⟨none, Tx.pop (Tx.Commit t₁ b₁).tx, []⟩
    ∧ Tx.Close (Tx.Rollback t₂ b₂).tx b'
        = ⟨none, Tx.pop (Tx.Rollback t₂ b₂).tx, []⟩ := by
  obtain ⟨-, -, hc₁⟩ := commit_success t₁ b₁ hc
  have hr₂ := rollback_success_state t₂ b₂ hs hr
  constructor
  · unfold Tx.Close
    rw [hc₁]
    simp
  · unfold Tx.Close
    rw [hr₂]
    simp [Tx.pop, hh]

/-- C3 witness: a committed depth-1 transaction and a rolled-back depth-0
transaction, with the backend accepting both resolutions. -/
theorem close_benign_after_resolution_case :
    Tx.Close (Tx.Commit ⟨none, TxState.pending, [TxState.pending], false⟩ none).tx
        (some ⟨3⟩)
      = ⟨none,
          Tx.pop (Tx.Commit ⟨none, TxState.pending, [TxState.pending], false⟩ none).tx,
          []⟩
    ∧ Tx.Close (Tx.Rollback ⟨none, TxState.pending, [], false⟩ none).tx (some ⟨3⟩)
      = ⟨none, Tx.pop (Tx.Rollback ⟨none, TxState.pending, [], false⟩ none).tx, []⟩ :=
  close_benign_after_resolution ⟨none, TxState.pending, [TxState.pending], false⟩
    ⟨none, TxState.pending, [], false⟩ none none (some ⟨3⟩)
    (by decide) rfl rfl (by decide)

/-- C6 counterexample: after a successful outermost Commit, Begin and
BeginCtx succeed (they test only the sticky rollback flag), silently pushing
the committed state instead of failing. -/
theorem begin_after_outermost_commit_no_error :
    (Tx.Commit ⟨none, TxState.pending, [], false⟩ none).err = none
    ∧ (Tx.Begin (Tx.Commit ⟨none, TxState.pending, [], false⟩ none).tx).err = none
    ∧ (Tx.BeginCtx (Tx.Commit ⟨none, TxState.pending, [], false⟩ none).tx 0).err
        = none := by
  decide

/-- C6 amended: after a successful outermost (empty-history) Commit, every
operation routed through the ok guard — Exec, Query, Row, Prepare, Get,
Select — and Commit and Rollback fail with the AlreadyCommitted error; but
Begin does not fail (and BeginCtx fails only on a context mismatch), since
both check only the sticky rollback flag. -/
theorem post_outermost_commit_ops_fail (tx : Tx) (q : String)
    (b b' : Option BackendErr)
    (_hh : tx.history = []) (hok : (Tx.Commit tx b).err = none) :
    (Tx.Exec (Tx.Commit tx b).tx q b').err = some Err.txCommitted
    ∧ (Tx.Query (Tx.Commit tx b).tx q b').err = some Err.txCommitted
    ∧ (Tx.Row (Tx.Commit tx b).tx q).err = some Err.txCommitted
    ∧ (Tx.Prepare (Tx.Commit tx b).tx q b').err = some Err.txCommitted
    ∧ (Tx.Get (Tx.Commit tx b).tx q b').err = some Err.txCommitted
    ∧ (Tx.Select (Tx.Commit tx b).tx q b').err = some Err.txCommitted
    ∧ (Tx.Commit (Tx.Commit tx b).tx b').err = some Err.txCommitted
    ∧ (Tx.Rollback (Tx.Commit tx b).tx b').err = some Err.txCommitted
    ∧ (Tx.Begin (Tx.Commit tx b).tx).err = none := by
  obtain ⟨hr, -, hc⟩ := commit_success tx b hok
  rw [hc]
  unfold Tx.Begin Tx.Exec Tx.Query Tx.Row Tx.Prepare Tx.Get Tx.Select
    Tx.Commit Tx.Rollback Tx.ok
  cases b' <;> simp [hr]

/-- C6 witness: a fresh depth-0 transaction committed successfully. -/
theorem post_outermost_commit_ops_fail_case :
    (Tx.Exec (Tx.Commit ⟨none, TxState.pending, [], false⟩ none).tx "q" none).err
        = some Err.txCommitted
    ∧ (Tx.Query (Tx.Commit ⟨none, TxState.pending, [], false⟩ none).tx "q" none).err
        = some Err.txCommitted
    ∧ (Tx.Row (Tx.Commit ⟨none, TxState.pending, [], false⟩ none).tx "q").err
        = some Err.txCommitted
    ∧ (Tx.Prepare (Tx.Commit ⟨none, TxState.pending, [], false⟩ none).tx "q" none).err
        = some Err.txCommitted
    ∧ (Tx.Get (Tx.Commit ⟨none, TxState.pending, [], false⟩ none).tx "q" none).err
        = some Err.txCommitted
    ∧ (Tx.Select (Tx.Commit ⟨none, TxState.pending, [], false⟩ none).tx "q" none).err
        = some Err.txCommitted
    ∧ (Tx.Commit (Tx.Commit ⟨none, TxState.pending, [], false⟩ none).tx none).err
        = some Err.txCommitted
    ∧ (Tx.Rollback (Tx.Commit ⟨none, TxState.pending, [], false⟩ none).tx none).err
        = some Err.txCommitted
    ∧ (Tx.Begin (Tx.Commit ⟨none, TxState.pending, [], false⟩ none).tx).err = none :=
  post_outermost_commit_ops_fail ⟨none, TxState.pending, [], false⟩ "q" none none
    rfl (by decide)

/-- C9 counterexample: the classifier is not total — a backend error whose
code string is shorter than two bytes makes the source's slice `e.Code[0:2]`
fail at run time instead of returning a boolean. -/
theorem didConnectionFail_short_code_fails :
    DidConnectionFail (some (GoError.pqError "1"))
      = Except.error "slice bounds out of range" := by
  rfl

/-- C9 amended: on nil, on every networking-transport error, on every other
non-backend error, and on every backend error whose code has at least two
bytes, the classifier returns a boolean without failing, and that boolean is
exactly the spec's classification (networking-transport errors and the code
classes 08, 3D, 53, 57, 58, XX); only a backend error code shorter than two
bytes escapes it, via the run-time slice failure of the counterexample. -/
theorem didConnectionFail_classifies (e : Option GoError)
    (h : ∀ code, e = some (GoError.pqError code) → 2 ≤ code.length) :
    DidConnectionFail e = Except.ok (specConnectionFailure e) := by
  cases e with
  | none => rfl
  | some g =>
    cases g with
    | netOpError m => rfl
    | other m => rfl
    | pqError code =>
      have hlen := h code rfl
      simp only [DidConnectionFail, specConnectionFailure]
      rw [if_neg (by omega)]
      simp [List.mem_cons, Bool.or_assoc]

/-- C9 witness: a connection-class backend error code. -/
theorem didConnectionFail_classifies_case :
    DidConnectionFail (some (GoError.pqError "08001"))
      = Except.ok (specConnectionFailure (some (GoError.pqError "08001"))) :=
  didConnectionFail_classifies (some (GoError.pqError "08001"))
    (by intro code hc; simp only [Option.some.injEq, GoError.pqError.injEq] at hc;
        subst hc; decide)

end Hermes
